import Mathlib

/-!
Verification of the browser-side WASM host shim (index.js) of the swar
website: the input-event marshalling protocol, the preload file store,
the texture handle table, and the draw entry point, modelled as a
shallow embedding in Lean.
-/

namespace Swar

/- Window event type codes, matching the OS_Window_Event_Type object in
index.js. -/
namespace OS_Window_Event_Type

def NIL : Int := 0

def CLOSE : Int := 1

def RESIZE : Int := 2

def KEYBOARD : Int := 3

def MOUSE_BUTTON : Int := 4

def MOUSE_MOVE : Int := 5

def MOUSE_SCROLL : Int := 6

end OS_Window_Event_Type

/- Key codes used by the shim, matching the OS_Key object in index.js.
Only the codes needed by the claims are listed; letters and digits map to
their ASCII codes directly in mapKeyToOSKey. -/
namespace OS_Key

def UNKNOWN : Int := 0

def MOUSE_L : Int := 1

def MOUSE_M : Int := 2

def MOUSE_R : Int := 3

def LCONTROL : Int := 256

def RCONTROL : Int := 257

def LSHIFT : Int := 258

def RSHIFT : Int := 259

def LALT : Int := 260

def RALT : Int := 261

def META : Int := 262

def TAB : Int := 263

def CAPS : Int := 264

def BACKSPACE : Int := 265

def DELETE : Int := 266

def RETURN : Int := 267

def ESCAPE : Int := 268

def SPACE : Int := 269

def UP : Int := 270

def RIGHT : Int := 271

def DOWN : Int := 272

def LEFT : Int := 273

def HOME : Int := 274

def END : Int := 275

def F1 : Int := 276

def F2 : Int := 277

def F3 : Int := 278

def F4 : Int := 279

def F5 : Int := 280

def F6 : Int := 281

def F7 : Int := 282

def F8 : Int := 283

def F9 : Int := 284

def F10 : Int := 285

def F11 : Int := 286

def F12 : Int := 287

end OS_Key

/-- One input event record as stored in the eventQueue array of index.js:
the object literal pushed by pushEvent(type, x, y, pressed, key). -/
structure OSEvent where
  type : Int
  x : Int
  y : Int
  pressed : Int
  key : Int
deriving DecidableEq, Repr

/-- A field value representable as a 32-bit signed integer, so that the
DataView.setInt32 write in writeEventsToWASM stores it without wrapping. -/
def fieldInRange (v : Int) : Prop := -2147483648 ≤ v ∧ v < 2147483648

instance (v : Int) : Decidable (fieldInRange v) := by
  unfold fieldInRange; infer_instance

/-- All five fields of the record are 32-bit representable. -/
def eventInRange (e : OSEvent) : Prop :=
  fieldInRange e.type ∧ fieldInRange e.x ∧ fieldInRange e.y ∧
    fieldInRange e.pressed ∧ fieldInRange e.key

instance (e : OSEvent) : Decidable (eventInRange e) := by
  unfold eventInRange; infer_instance

/-- The unsigned 32-bit pattern DataView.setInt32 stores for the value v
(twos-complement wrap of a JS number holding an integer). -/
def toUInt32 (v : Int) : Nat := (v % 4294967296).toNat

/-- The four bytes of the 32-bit pattern of v in little-endian order,
as laid out in guest memory by setInt32 with littleEndian = true. -/
def int32Bytes (v : Int) : List Nat :=
  [toUInt32 v % 256, toUInt32 v / 256 % 256,
   toUInt32 v / 65536 % 256, toUInt32 v / 16777216 % 256]

/-- The 20-byte block one loop iteration of writeEventsToWASM writes for
one record: type, x, y, pressed, key, each as 4 little-endian bytes. -/
def serializeEvent (e : OSEvent) : List Nat :=
  int32Bytes e.type ++ int32Bytes e.x ++ int32Bytes e.y ++
    int32Bytes e.pressed ++ int32Bytes e.key

/-- writeEventsToWASM from index.js. Input is the current eventQueue; the
result is the contiguous byte block written starting at the guest event
buffer address, paired with the argument passed to wasm_set_event_count
(none when the function returned early without writing or reporting). -/
def writeEventsToWASM (queue : List OSEvent) : List Nat × Option Nat :=
  if queue.length = 0 then ([], none)
  else
    let maxEvents := min queue.length 128
    (((queue.take maxEvents).map serializeEvent).flatten, some maxEvents)

/-- Reading a serialized buffer back: signed interpretation of an
unsigned 32-bit pattern, as a guest reading the i32 field would. -/
def uint32ToInt32 (u : Nat) : Int :=
  if u < 2147483648 then (u : Int) else (u : Int) - 4294967296

/-- Byte at index i of the buffer (0 beyond the end). -/
def byteAt (b : List Nat) (i : Nat) : Nat := b.getD i 0

/-- Decode the little-endian i32 stored at byte offset i of the buffer. -/
def decodeInt32At (b : List Nat) (i : Nat) : Int :=
  uint32ToInt32 (byteAt b i + 256 * byteAt b (i + 1) +
    65536 * byteAt b (i + 2) + 16777216 * byteAt b (i + 3))

/-- Decode one 20-byte record block, following the documented layout
type:i32, x:i32, y:i32, pressed:i32, key:i32. -/
def decodeEvent (b : List Nat) : OSEvent :=
  { type := decodeInt32At b 0
    x := decodeInt32At b 4
    y := decodeInt32At b 8
    pressed := decodeInt32At b 12
    key := decodeInt32At b 16 }

/-- Decode count consecutive 20-byte record blocks from the front of the
buffer. -/
def decodeEvents : List Nat → Nat → List OSEvent
  | _, 0 => []
  | b, n + 1 => decodeEvent (b.take 20) :: decodeEvents (b.drop 20) n

/-- The host-side mutable state the game loop touches: the eventQueue
array, plus the guest-visible results of the last flush (the bytes in the
guest event buffer and the count recorded by wasm_set_event_count). -/
structure HostState where
  eventQueue : List OSEvent
  guestEventBytes : List Nat
  guestEventCount : Option Nat
deriving DecidableEq, Repr

/-- The effect of calling writeEventsToWASM on the host state: when the
queue is empty the early return leaves guest memory and the recorded
count untouched; otherwise the serialized block is written and the count
is reported via wasm_set_event_count. -/
def applyFlush (s : HostState) : HostState :=
  match writeEventsToWASM s.eventQueue with
  | (_, none) => s
  | (bytes, some n) =>
      { s with guestEventBytes := bytes, guestEventCount := some n }

/-- One gameLoop tick from index.js: when the wasm instance and its
wasm_frame export are present, flush the queue if it is non-empty and
invoke the guest frame; in every case clearEventQueue() runs before the
next tick is scheduled. The guest frame call itself has no host-visible
effect on this state. -/
def gameLoopTick (hasFrame : Bool) (s : HostState) : HostState :=
  let s1 := if hasFrame then
      (if 0 < s.eventQueue.length then applyFlush s else s)
    else s
  { s1 with eventQueue := [] }

/-- pushEvent from index.js: append one record to the eventQueue. -/
def pushEvent (q : List OSEvent) (type x y pressed key : Int) :
    List OSEvent :=
  q ++ [{ type := type, x := x, y := y, pressed := pressed, key := key }]

/-- Lexicographic comparison on code units, the semantics of the JS
string relational operators used by mapKeyToOSKey. -/
def charListLt : List Char → List Char → Bool
  | _, [] => false
  | [], _ :: _ => true
  | a :: as, b :: bs =>
      a.toNat < b.toNat || (a = b && charListLt as bs)

/-- JS string comparison a < b. -/
def jsStrLt (s t : String) : Bool := charListLt s.data t.data

/-- mapKeyToOSKey from index.js, on the KeyboardEvent key string and the
numeric KeyboardEvent location field. The JS relational operators on
strings are lexicographic; each non-strict comparison of the source is
rendered as the equivalent negated strict comparison. -/
def mapKeyToOSKey (key : String) (location : Int) : Int :=
  if !jsStrLt key "0" && !jsStrLt "9" key then (key.front.toNat : Int)
  else if key.length = 1 && !jsStrLt key "A" && !jsStrLt "Z" key then
    (key.front.toLower.toNat : Int)
  else if key.length = 1 && !jsStrLt key "a" && !jsStrLt "z" key then
    (key.front.toNat : Int)
  else
    match key with
    | "Control" =>
        if location = 1 then OS_Key.LCONTROL else OS_Key.RCONTROL
    | "Shift" => if location = 1 then OS_Key.LSHIFT else OS_Key.RSHIFT
    | "Alt" => if location = 1 then OS_Key.LALT else OS_Key.RALT
    | "Meta" => OS_Key.META
    | "Tab" => OS_Key.TAB
    | "CapsLock" => OS_Key.CAPS
    | "Backspace" => OS_Key.BACKSPACE
    | "Delete" => OS_Key.DELETE
    | "Enter" => OS_Key.RETURN
    | "Escape" => OS_Key.ESCAPE
    | " " => OS_Key.SPACE
    | "ArrowUp" => OS_Key.UP
    | "ArrowRight" => OS_Key.RIGHT
    | "ArrowDown" => OS_Key.DOWN
    | "ArrowLeft" => OS_Key.LEFT
    | "Home" => OS_Key.HOME
    | "End" => OS_Key.END
    | "F1" => OS_Key.F1
    | "F2" => OS_Key.F2
    | "F3" => OS_Key.F3
    | "F4" => OS_Key.F4
    | "F5" => OS_Key.F5
    | "F6" => OS_Key.F6
    | "F7" => OS_Key.F7
    | "F8" => OS_Key.F8
    | "F9" => OS_Key.F9
    | "F10" => OS_Key.F10
    | "F11" => OS_Key.F11
    | "F12" => OS_Key.F12
    | _ => OS_Key.UNKNOWN

/-- mapMouseButtonToOSKey from index.js. -/
def mapMouseButtonToOSKey (button : Int) : Int :=
  if button = 0 then OS_Key.MOUSE_L
  else if button = 1 then OS_Key.MOUSE_M
  else if button = 2 then OS_Key.MOUSE_R
  else OS_Key.UNKNOWN

/-- Math.floor on a rational: the greatest integer below, computed as
Euclidean division of the numerator by the (positive) denominator. -/
def mathFloor (x : ℚ) : Int := x.num / (x.den : Int)

/-- getMousePos from index.js: viewport (client) coordinates minus the
canvas bounding-box origin, passed through Math.floor. DOM coordinates
are doubles, modelled as rationals. -/
def getMousePos (clientX clientY rectLeft rectTop : ℚ) : Int × Int :=
  (mathFloor (clientX - rectLeft), mathFloor (clientY - rectTop))

/-- Math.sign on a (non-NaN) number: 1, -1 or 0. -/
def mathSign (x : ℚ) : Int :=
  if 0 < x then 1 else if x < 0 then -1 else 0

/-- The keydown listener from setupEventListeners: look the key up,
enqueue a KEYBOARD record with pressed = 1 only when the code is not
UNKNOWN. -/
def handleKeyDown (key : String) (location : Int) (q : List OSEvent) :
    List OSEvent :=
  let osKey := mapKeyToOSKey key location
  if osKey ≠ OS_Key.UNKNOWN then
    pushEvent q OS_Window_Event_Type.KEYBOARD 0 0 1 osKey
  else q

/-- The keyup listener: same filter, pressed = 0. -/
def handleKeyUp (key : String) (location : Int) (q : List OSEvent) :
    List OSEvent :=
  let osKey := mapKeyToOSKey key location
  if osKey ≠ OS_Key.UNKNOWN then
    pushEvent q OS_Window_Event_Type.KEYBOARD 0 0 0 osKey
  else q

/-- The mousedown listener: always enqueues a MOUSE_BUTTON record at the
canvas-local position with the mapped button code. -/
def handleMouseDown (button : Int) (clientX clientY rectLeft rectTop : ℚ)
    (q : List OSEvent) : List OSEvent :=
  let pos := getMousePos clientX clientY rectLeft rectTop
  pushEvent q OS_Window_Event_Type.MOUSE_BUTTON pos.1 pos.2 1
    (mapMouseButtonToOSKey button)

/-- The mouseup listener: as mousedown with pressed = 0. -/
def handleMouseUp (button : Int) (clientX clientY rectLeft rectTop : ℚ)
    (q : List OSEvent) : List OSEvent :=
  let pos := getMousePos clientX clientY rectLeft rectTop
  pushEvent q OS_Window_Event_Type.MOUSE_BUTTON pos.1 pos.2 0
    (mapMouseButtonToOSKey button)

/-- The mousemove listener: always enqueues a MOUSE_MOVE record. -/
def handleMouseMove (clientX clientY rectLeft rectTop : ℚ)
    (q : List OSEvent) : List OSEvent :=
  let pos := getMousePos clientX clientY rectLeft rectTop
  pushEvent q OS_Window_Event_Type.MOUSE_MOVE pos.1 pos.2 0 0

/-- The wheel listener: scrollDirection = -Math.sign(delta) on each axis,
enqueued as a MOUSE_SCROLL record. -/
def handleWheel (deltaX deltaY : ℚ) (q : List OSEvent) : List OSEvent :=
  let scrollDirectionY : Int := -mathSign deltaY
  let scrollDirectionX : Int := -mathSign deltaX
  pushEvent q OS_Window_Event_Type.MOUSE_SCROLL scrollDirectionX
    scrollDirectionY 0 0

/-- The preloadedFiles map: path string to file bytes, absent paths give
none (Map.get returns undefined). The path argument below is the string
already decoded from guest memory by cstr_by_ptr. -/
def PreloadStore : Type := String → Option (List Nat)

/-- js_get_preloaded_file from index.js: look the decoded path up in the
preloadedFiles map; null (none) when absent. -/
def js_get_preloaded_file (store : PreloadStore) (path : String) :
    Option (List Nat) :=
  match store path with
  | none => none
  | some fileData => some fileData

/-- js_get_file_size from index.js: length of the stored bytes, 0 when
the file is not found. -/
def js_get_file_size (store : PreloadStore) (path : String) : Nat :=
  match js_get_preloaded_file store path with
  | some fileData => fileData.length
  | none => 0

/-- js_copy_file_to_wasm from index.js: the returned byte count and the
bytes copied into guest memory at the destination; (0, nothing) when the
file is not found. -/
def js_copy_file_to_wasm (store : PreloadStore) (path : String)
    (max_size : Nat) : Nat × List Nat :=
  match js_get_preloaded_file store path with
  | none => (0, [])
  | some fileData =>
      let bytesToCopy := min fileData.length max_size
      (bytesToCopy, fileData.take bytesToCopy)

/-- One call into the texture-table API, as far as handle allocation is
concerned: webgl_create_texture allocates, webgl_destroy_texture removes
an entry. The pixel-data arguments of create do not affect the handle. -/
inductive TexOp where
  | create
  | destroy (handle : Nat)
deriving DecidableEq, Repr

/-- The module-level texture state of index.js: the keys of textureMap
and the nextTextureHandle counter, initialised to 1. -/
structure TexState where
  textureMap : List Nat
  nextTextureHandle : Nat
deriving DecidableEq, Repr

/-- The state at script load: empty map, nextTextureHandle = 1. -/
def initTexState : TexState := { textureMap := [], nextTextureHandle := 1 }

/-- Handle allocation in webgl_create_texture: handle = current value of
nextTextureHandle, which is post-incremented; the handle is inserted
into textureMap. -/
def webgl_create_texture (s : TexState) : Nat × TexState :=
  (s.nextTextureHandle,
   { textureMap := s.textureMap ++ [s.nextTextureHandle],
     nextTextureHandle := s.nextTextureHandle + 1 })

/-- webgl_destroy_texture: remove the entry when present; the counter is
untouched. -/
def webgl_destroy_texture (handle : Nat) (s : TexState) : TexState :=
  { s with textureMap := s.textureMap.filter (fun h => h ≠ handle) }

/-- Run a sequence of texture operations, collecting the handles the
create calls returned, in order. -/
def runTexOps : List TexOp → TexState → TexState × List Nat
  | [], s => (s, [])
  | TexOp.create :: rest, s =>
      let c := webgl_create_texture s
      let r := runTexOps rest c.2
      (r.1, c.1 :: r.2)
  | TexOp.destroy h :: rest, s => runTexOps rest (webgl_destroy_texture h s)

/-- Whether the operation is a create. -/
def isCreate : TexOp → Bool
  | TexOp.create => true
  | TexOp.destroy _ => false

/- WebGL constant values from the WebGL2 specification, as the numeric
values gl.FLOAT, gl.UNSIGNED_BYTE and gl.TRIANGLES carry. -/
def GL_TRIANGLES : Nat := 4

def GL_UNSIGNED_BYTE : Nat := 5121

def GL_FLOAT : Nat := 5126

/- Labels for the three attribute locations of programInfo. -/
def ATTRIB_VERT_POS : Nat := 0

def ATTRIB_COLOR : Nat := 1

def ATTRIB_UV : Nat := 2

/-- One WebGL call issued by webgl_draw_vertex_buffer, in issue order. -/
inductive GLCommand where
  | bufferData (sizeFloats : Int)
  | enableVertexAttribArray (attrib : Nat)
  | vertexAttribPointer (attrib : Nat) (size : Int) (dataType : Nat)
      (normalized : Bool) (stride : Int) (offset : Int)
  | uniformMatrix4fv (which : Nat)
  | uniform1i (which : Nat) (value : Int)
  | drawArrays (mode : Nat) (first : Int) (count : Int)
  | deleteBuffer
deriving DecidableEq, Repr

/- Labels for the uniform locations written by the draw call. -/
def UNIFORM_PROJ : Nat := 0

def UNIFORM_MODEL : Nat := 1

def UNIFORM_TEXTURE : Nat := 2

def UNIFORM_USE_TEXTURE : Nat := 3

def UNIFORM_IS_TEXT : Nat := 4

/-- webgl_draw_vertex_buffer from index.js, as the trace of WebGL calls
one invocation issues. hasCurrentTexture and currentTexturePixelFormat
mirror the module-level globals read by the two conditional uniforms.
The uv attribute data type is chosen by the color_is_float flag; the
color attribute is configured with gl.FLOAT unconditionally. -/
def webgl_draw_vertex_buffer (hasCurrentTexture : Bool)
    (currentTexturePixelFormat : Int)
    (count _vert_data vert_size vert_stride vert_offset
      _uv_data uv_stride uv_offset
      _color_data color_stride color_offset color_is_float : Int) :
    List GLCommand :=
  [GLCommand.bufferData (count * vert_stride / 4),
   GLCommand.enableVertexAttribArray ATTRIB_VERT_POS,
   GLCommand.vertexAttribPointer ATTRIB_VERT_POS vert_size GL_FLOAT
     false vert_stride vert_offset,
   GLCommand.enableVertexAttribArray ATTRIB_COLOR,
   GLCommand.vertexAttribPointer ATTRIB_COLOR 4 GL_FLOAT
     false color_stride color_offset,
   GLCommand.enableVertexAttribArray ATTRIB_UV,
   GLCommand.vertexAttribPointer ATTRIB_UV 2
     (if color_is_float ≠ 0 then GL_FLOAT else GL_UNSIGNED_BYTE)
     false uv_stride uv_offset,
   GLCommand.uniformMatrix4fv UNIFORM_PROJ,
   GLCommand.uniformMatrix4fv UNIFORM_MODEL,
   GLCommand.uniform1i UNIFORM_TEXTURE 0,
   GLCommand.uniform1i UNIFORM_USE_TEXTURE
     (if hasCurrentTexture then 1 else 0),
   GLCommand.uniform1i UNIFORM_IS_TEXT
     (if currentTexturePixelFormat = 3 then 1 else 0),
   GLCommand.drawArrays GL_TRIANGLES 0 count,
   GLCommand.deleteBuffer]

/-- Whether a command is a drawArrays call. -/
def isDrawCall : GLCommand → Bool
  | GLCommand.drawArrays _ _ _ => true
  | _ => false

/-- The data type the first vertexAttribPointer call for the given
attribute configures, if any. -/
def attribPtrType (cmds : List GLCommand) (attrib : Nat) : Option Nat :=
  cmds.findSome? fun c =>
    match c with
    | GLCommand.vertexAttribPointer a _ t _ _ _ =>
        if a = attrib then some t else none
    | _ => none

/-!  Helper lemmas. -/

theorem serializeEvent_length (e : OSEvent) :
    (serializeEvent e).length = 20 := rfl

theorem int32_roundtrip (v : Int) (h1 : -2147483648 ≤ v)
    (h2 : v < 2147483648) :
    uint32ToInt32 (toUInt32 v % 256 + 256 * (toUInt32 v / 256 % 256) +
      65536 * (toUInt32 v / 65536 % 256) +
      16777216 * (toUInt32 v / 16777216 % 256)) = v := by
  simp only [toUInt32, uint32ToInt32]
  split <;> omega

theorem decodeEvent_serializeEvent (e : OSEvent) (h : eventInRange e) :
    decodeEvent (serializeEvent e) = e := by
  obtain ⟨⟨ht1, ht2⟩, ⟨hx1, hx2⟩, ⟨hy1, hy2⟩, ⟨hp1, hp2⟩, ⟨hk1, hk2⟩⟩ := h
  cases e with
  | mk t x y p k =>
    show OSEvent.mk _ _ _ _ _ = OSEvent.mk t x y p k
    simp only [OSEvent.mk.injEq]
    refine ⟨?_, ?_, ?_, ?_, ?_⟩ <;>
      exact int32_roundtrip _ (by assumption) (by assumption)

theorem decodeEvents_cons (e : OSEvent) (rest : List Nat) (n : Nat) :
    decodeEvents (serializeEvent e ++ rest) (n + 1) =
      decodeEvent (serializeEvent e) :: decodeEvents rest n := by
  have htake : (serializeEvent e ++ rest).take 20 = serializeEvent e := by
    rw [← serializeEvent_length e]
    exact List.take_left _ _
  have hdrop : (serializeEvent e ++ rest).drop 20 = rest := by
    rw [← serializeEvent_length e]
    exact List.drop_left _ _
  simp [decodeEvents, htake, hdrop]

theorem decodeEvents_flatten (l : List OSEvent)
    (h : ∀ e ∈ l, eventInRange e) :
    decodeEvents ((l.map serializeEvent).flatten) l.length = l := by
  induction l with
  | nil => rfl
  | cons e rest ih =>
    simp only [List.map_cons, List.flatten_cons, List.length_cons]
    rw [decodeEvents_cons,
      decodeEvent_serializeEvent e (h e (List.mem_cons_self e rest)),
      ih (fun x hx => h x (List.mem_cons_of_mem e hx))]

theorem flatten_serialize_length (l : List OSEvent) :
    ((l.map serializeEvent).flatten).length = 20 * l.length := by
  induction l with
  | nil => rfl
  | cons e rest ih =>
    simp only [List.map_cons, List.flatten_cons, List.length_append,
      serializeEvent_length, ih, List.length_cons]
    ring

theorem gameLoopTick_eventQueue (hasFrame : Bool) (s : HostState) :
    (gameLoopTick hasFrame s).eventQueue = [] := rfl

theorem runTexOps_handles (ops : List TexOp) (s : TexState) :
    (runTexOps ops s).2 =
      List.range' s.nextTextureHandle (ops.countP isCreate) ∧
    (runTexOps ops s).1.nextTextureHandle =
      s.nextTextureHandle + ops.countP isCreate := by
  induction ops generalizing s with
  | nil => simp [runTexOps]
  | cons op rest ih =>
    cases op with
    | create =>
      obtain ⟨ih1, ih2⟩ :=
        ih { textureMap := s.textureMap ++ [s.nextTextureHandle],
             nextTextureHandle := s.nextTextureHandle + 1 }
      have hc : (TexOp.create :: rest).countP isCreate =
          rest.countP isCreate + 1 := by
        simp [List.countP_cons, isCreate]
      dsimp only at ih1 ih2
      simp only [runTexOps, webgl_create_texture, ih1, ih2, hc]
      refine ⟨?_, by omega⟩
      rw [List.range'_succ]
    | destroy hdl =>
      obtain ⟨ih1, ih2⟩ := ih (webgl_destroy_texture hdl s)
      have hc : (TexOp.destroy hdl :: rest).countP isCreate =
          rest.countP isCreate := by
        simp [List.countP_cons, isCreate]
      simp only [runTexOps, hc]
      exact ⟨ih1, ih2⟩

/-!  Claim theorems. -/

/-- Claim C1: flushing a non-empty queue of N up to 128 records via
writeEventsToWASM writes exactly the concatenation of the 20-byte
little-endian blocks of the records in capture order (20 N bytes at the
guest buffer), reports count N via wasm_set_event_count, and decoding
the written buffer yields the same N records field-for-field in the same
order. -/
theorem C1_serialize_roundtrip (queue : List OSEvent)
    (hne : queue ≠ []) (hlen : queue.length ≤ 128)
    (hrange : ∀ e ∈ queue, eventInRange e) :
    (writeEventsToWASM queue).1 = (queue.map serializeEvent).flatten ∧
    (writeEventsToWASM queue).1.length = 20 * queue.length ∧
    (writeEventsToWASM queue).2 = some queue.length ∧
    decodeEvents (writeEventsToWASM queue).1 queue.length = queue := by
  have h0 : ¬ queue.length = 0 := by
    simpa [List.length_eq_zero] using hne
  have hmin : min queue.length 128 = queue.length := min_eq_left hlen
  have hw : writeEventsToWASM queue =
      ((queue.map serializeEvent).flatten, some queue.length) := by
    simp [writeEventsToWASM, h0, hmin]
  refine ⟨by rw [hw], ?_, by rw [hw], ?_⟩
  · rw [hw]; exact flatten_serialize_length queue
  · rw [hw]; exact decodeEvents_flatten queue hrange

/-- Witness for C1 at a one-record queue. -/
theorem C1_serialize_roundtrip_witness :
    ([⟨3, 10, 20, 1, 97⟩] : List OSEvent) ≠ [] ∧
    decodeEvents (writeEventsToWASM [⟨3, 10, 20, 1, 97⟩]).1 1 =
      [⟨3, 10, 20, 1, 97⟩] :=
  ⟨by decide,
   (C1_serialize_roundtrip [⟨3, 10, 20, 1, 97⟩] (by decide) (by decide)
      (by decide)).2.2.2⟩

/-- Claim C2: with more than 128 records enqueued in one frame, exactly
the first 128 records in capture order are serialized, the count passed
to wasm_set_event_count is 128, and the excess records are dropped: the
game-loop tick leaves the queue empty, so nothing carries to the next
frame. -/
theorem C2_overflow_truncates (queue : List OSEvent)
    (h : 128 < queue.length) :
    (writeEventsToWASM queue).1 =
      ((queue.take 128).map serializeEvent).flatten ∧
    (writeEventsToWASM queue).2 = some 128 ∧
    ∀ (hasFrame : Bool) (bytes : List Nat) (cnt : Option Nat),
      (gameLoopTick hasFrame
        { eventQueue := queue, guestEventBytes := bytes,
          guestEventCount := cnt }).eventQueue = [] := by
  have h0 : ¬ queue.length = 0 := by omega
  have hmin : min queue.length 128 = 128 := min_eq_right (by omega)
  refine ⟨?_, ?_, ?_⟩
  · simp [writeEventsToWASM, h0, hmin]
  · simp [writeEventsToWASM, h0, hmin]
  · intro hasFrame bytes cnt
    exact gameLoopTick_eventQueue hasFrame _

/-- Witness for C2 at a queue of 129 identical mouse-move records. -/
theorem C2_overflow_truncates_witness :
    128 < (List.replicate 129 (⟨5, 7, 9, 0, 0⟩ : OSEvent)).length ∧
    (writeEventsToWASM (List.replicate 129 (⟨5, 7, 9, 0, 0⟩ : OSEvent))).2 =
      some 128 :=
  ⟨by simp,
   (C2_overflow_truncates (List.replicate 129 ⟨5, 7, 9, 0, 0⟩)
      (by simp)).2.1⟩

/-- Claim C3: after every game-loop tick, whether or not a flush happened
and whether or not the guest frame export was present and ran, the event
queue is empty at the start of the next tick. -/
theorem C3_queue_cleared_every_tick (hasFrame : Bool) (s : HostState) :
    (gameLoopTick hasFrame s).eventQueue = [] :=
  gameLoopTick_eventQueue hasFrame s

/-- Claim C4: a keyboard event whose key maps to UNKNOWN enqueues
nothing (keydown and keyup); a mouse-button event always enqueues one
MOUSE_BUTTON record, with buttons other than 0/1/2 carrying the explicit
UNKNOWN key code; mouse-move and wheel events always enqueue one
record. -/
theorem C4_enqueue_policy :
    (∀ (key : String) (location : Int) (q : List OSEvent),
      mapKeyToOSKey key location = OS_Key.UNKNOWN →
        handleKeyDown key location q = q ∧ handleKeyUp key location q = q) ∧
    (∀ (button : Int) (cx cy rl rt : ℚ) (q : List OSEvent),
      handleMouseDown button cx cy rl rt q =
        q ++ [{ type := OS_Window_Event_Type.MOUSE_BUTTON,
                x := (getMousePos cx cy rl rt).1,
                y := (getMousePos cx cy rl rt).2, pressed := 1,
                key := mapMouseButtonToOSKey button }] ∧
      handleMouseUp button cx cy rl rt q =
        q ++ [{ type := OS_Window_Event_Type.MOUSE_BUTTON,
                x := (getMousePos cx cy rl rt).1,
                y := (getMousePos cx cy rl rt).2, pressed := 0,
                key := mapMouseButtonToOSKey button }] ∧
      (button ≠ 0 → button ≠ 1 → button ≠ 2 →
        mapMouseButtonToOSKey button = OS_Key.UNKNOWN)) ∧
    (∀ (cx cy rl rt : ℚ) (q : List OSEvent),
      handleMouseMove cx cy rl rt q =
        q ++ [{ type := OS_Window_Event_Type.MOUSE_MOVE,
                x := (getMousePos cx cy rl rt).1,
                y := (getMousePos cx cy rl rt).2, pressed := 0,
                key := 0 }]) ∧
    (∀ (deltaX deltaY : ℚ) (q : List OSEvent),
      handleWheel deltaX deltaY q =
        q ++ [{ type := OS_Window_Event_Type.MOUSE_SCROLL,
                x := -mathSign deltaX, y := -mathSign deltaY,
                pressed := 0, key := 0 }]) := by
  refine ⟨?_, ?_, ?_, ?_⟩
  · intro key location q h
    constructor <;> simp [handleKeyDown, handleKeyUp, h]
  · intro button cx cy rl rt q
    refine ⟨rfl, rfl, ?_⟩
    intro h0 h1 h2
    simp [mapMouseButtonToOSKey, h0, h1, h2]
  · intro cx cy rl rt q
    rfl
  · intro deltaX deltaY q
    rfl

/-- Witness for C4: the unmapped key string F13 is suppressed on
keydown, and mouse button 3 maps to the UNKNOWN code. -/
theorem C4_enqueue_policy_witness :
    handleKeyDown "F13" 0 [] = [] ∧
    mapMouseButtonToOSKey 3 = OS_Key.UNKNOWN :=
  ⟨(C4_enqueue_policy.1 "F13" 0 [] (by decide)).1,
   (C4_enqueue_policy.2.1 3 0 0 0 0 []).2.2 (by decide) (by decide)
     (by decide)⟩

/-- Claim C5: a wheel event enqueues a MOUSE_SCROLL record carrying only
the inverted sign of each scroll delta, never the magnitude; in
particular deltaY = 120 with deltaX = 0 yields y = -1 and x = 0. -/
theorem C5_wheel_sign_inverted :
    (∀ (deltaX deltaY : ℚ) (q : List OSEvent),
      handleWheel deltaX deltaY q =
        q ++ [{ type := OS_Window_Event_Type.MOUSE_SCROLL,
                x := -mathSign deltaX, y := -mathSign deltaY,
                pressed := 0, key := 0 }]) ∧
    handleWheel 0 120 [] =
      [{ type := OS_Window_Event_Type.MOUSE_SCROLL, x := 0, y := -1,
         pressed := 0, key := 0 }] :=
  ⟨fun _ _ _ => rfl, by decide⟩

/-- Claim C6: a path absent from the preload store yields null from
js_get_preloaded_file, 0 from js_get_file_size, and 0 bytes copied by
js_copy_file_to_wasm; all three are total functions, so the absence is
absorbed, not raised. -/
theorem C6_missing_file_not_fatal (store : PreloadStore) (path : String)
    (h : store path = none) (max_size : Nat) :
    js_get_preloaded_file store path = none ∧
    js_get_file_size store path = 0 ∧
    js_copy_file_to_wasm store path max_size = (0, []) := by
  refine ⟨?_, ?_, ?_⟩ <;>
    simp [js_get_preloaded_file, js_get_file_size, js_copy_file_to_wasm, h]

/-- Witness for C6 at the empty store. -/
theorem C6_missing_file_not_fatal_witness :
    js_get_file_size (fun _ => none) "public/font.ttf" = 0 ∧
    js_copy_file_to_wasm (fun _ => none) "public/font.ttf" 64 = (0, []) :=
  ⟨(C6_missing_file_not_fatal (fun _ => none) "public/font.ttf" rfl 64).2.1,
   (C6_missing_file_not_fatal (fun _ => none) "public/font.ttf" rfl 64).2.2⟩

/-- Claim C7: the handles returned by webgl_create_texture over any
sequence of create and destroy operations are exactly 1, 2, 3, ... in
order (strictly increasing from 1), and destroying a previously returned
handle K and then creating two textures yields handles distinct from K
and from each other. -/
theorem C7_texture_handles_never_reused (ops : List TexOp) (K : Nat)
    (hK : K ∈ (runTexOps ops initTexState).2) :
    (runTexOps ops initTexState).2 =
      List.range' 1 (ops.countP isCreate) ∧
    (runTexOps ops initTexState).2.Pairwise (· < ·) ∧
    (webgl_create_texture
        (webgl_destroy_texture K (runTexOps ops initTexState).1)).1 ≠ K ∧
    (webgl_create_texture (webgl_create_texture
        (webgl_destroy_texture K (runTexOps ops initTexState).1)).2).1 ≠ K ∧
    (webgl_create_texture
        (webgl_destroy_texture K (runTexOps ops initTexState).1)).1 ≠
      (webgl_create_texture (webgl_create_texture
        (webgl_destroy_texture K (runTexOps ops initTexState).1)).2).1 := by
  obtain ⟨hh, hn⟩ := runTexOps_handles ops initTexState
  have hinit : initTexState.nextTextureHandle = 1 := rfl
  rw [hinit] at hh hn
  have hKlt : K < 1 + ops.countP isCreate := by
    rw [hh] at hK
    exact (List.mem_range'_1.mp hK).2
  refine ⟨hh, ?_, ?_, ?_, ?_⟩
  · rw [hh]; exact List.pairwise_lt_range' 1 (ops.countP isCreate)
  · simp only [webgl_create_texture, webgl_destroy_texture, hn]; omega
  · simp only [webgl_create_texture, webgl_destroy_texture, hn]; omega
  · simp only [webgl_create_texture, webgl_destroy_texture, hn]; omega

/-- Witness for C7: create two textures, then destroy handle 2. -/
theorem C7_texture_handles_never_reused_witness :
    (2 : Nat) ∈ (runTexOps [TexOp.create, TexOp.create] initTexState).2 ∧
    (webgl_create_texture (webgl_destroy_texture 2
        (runTexOps [TexOp.create, TexOp.create] initTexState).1)).1 ≠ 2 :=
  ⟨by decide,
   (C7_texture_handles_never_reused [TexOp.create, TexOp.create] 2
      (by decide)).2.2.1⟩

/-- Claim C8: mouse-button records carry the viewport coordinates minus
the canvas bounding-box origin, floored to integers; a click at viewport
coordinates equal to the canvas top-left corner gives x = 0 and
y = 0. -/
theorem C8_mouse_coords_canvas_local :
    (∀ (button : Int) (cx cy rl rt : ℚ) (q : List OSEvent),
      handleMouseDown button cx cy rl rt q =
        q ++ [{ type := OS_Window_Event_Type.MOUSE_BUTTON,
                x := mathFloor (cx - rl), y := mathFloor (cy - rt),
                pressed := 1, key := mapMouseButtonToOSKey button }] ∧
      handleMouseUp button cx cy rl rt q =
        q ++ [{ type := OS_Window_Event_Type.MOUSE_BUTTON,
                x := mathFloor (cx - rl), y := mathFloor (cy - rt),
                pressed := 0, key := mapMouseButtonToOSKey button }]) ∧
    (∀ (button : Int) (cx cy : ℚ) (q : List OSEvent),
      handleMouseDown button cx cy cx cy q =
        q ++ [{ type := OS_Window_Event_Type.MOUSE_BUTTON, x := 0, y := 0,
                pressed := 1, key := mapMouseButtonToOSKey button }]) := by
  have hfz : mathFloor 0 = 0 := by decide
  refine ⟨fun button cx cy rl rt q => ⟨rfl, rfl⟩, ?_⟩
  intro button cx cy q
  simp [handleMouseDown, getMousePos, pushEvent, sub_self, hfz]

/-- Claim C9, as stated, is false: at a concrete invocation with
color_is_float = 0 the color attribute is still configured with
gl.FLOAT, not gl.UNSIGNED_BYTE, so the flag does not select the color
channel encoding. -/
theorem C9_color_flag_counterexample :
    attribPtrType
      (webgl_draw_vertex_buffer false 0 6 0 2 20 0 0 20 8 0 20 16 0)
      ATTRIB_COLOR = some GL_FLOAT ∧
    GL_FLOAT ≠ GL_UNSIGNED_BYTE := by
  exact ⟨rfl, by decide⟩

/-- Claim C9, amended: in webgl_draw_vertex_buffer the color_is_float
flag selects only whether the UV channel is read as float or as byte
data; the color channel is configured as float unconditionally; and each
invocation issues exactly one draw call, a triangle list over count
vertices. -/
theorem C9_draw_vertex_buffer_amended (hasTex : Bool)
    (fmt count vd vs vstr voff ud ustr uoff cd cstr coff cif : Int) :
    attribPtrType
      (webgl_draw_vertex_buffer hasTex fmt count vd vs vstr voff
        ud ustr uoff cd cstr coff cif) ATTRIB_UV =
      some (if cif ≠ 0 then GL_FLOAT else GL_UNSIGNED_BYTE) ∧
    attribPtrType
      (webgl_draw_vertex_buffer hasTex fmt count vd vs vstr voff
        ud ustr uoff cd cstr coff cif) ATTRIB_COLOR = some GL_FLOAT ∧
    (webgl_draw_vertex_buffer hasTex fmt count vd vs vstr voff
        ud ustr uoff cd cstr coff cif).filter isDrawCall =
      [GLCommand.drawArrays GL_TRIANGLES 0 count] :=
  ⟨rfl, rfl, rfl⟩

/-- Claim C10: a tick at which the event queue is empty writes nothing
to guest memory and never calls wasm_set_event_count, so the
guest-visible event count keeps its value from the previous frame. -/
theorem C10_empty_queue_skips_flush (hasFrame : Bool) (s : HostState)
    (h : s.eventQueue = []) :
    writeEventsToWASM s.eventQueue = ([], none) ∧
    (gameLoopTick hasFrame s).guestEventBytes = s.guestEventBytes ∧
    (gameLoopTick hasFrame s).guestEventCount = s.guestEventCount := by
  refine ⟨by simp [writeEventsToWASM, h], ?_, ?_⟩ <;>
    simp [gameLoopTick, h]

/-- Witness for C10: with an empty queue the previously recorded count 5
survives the tick. -/
theorem C10_empty_queue_skips_flush_witness :
    (gameLoopTick true
      { eventQueue := [], guestEventBytes := [1, 2, 3],
        guestEventCount := some 5 }).guestEventCount = some 5 :=
  (C10_empty_queue_skips_flush true
    { eventQueue := [], guestEventBytes := [1, 2, 3],
      guestEventCount := some 5 } rfl).2.2

end Swar
